import Mathlib

/-!
Verification of the messenger-app backend (Express + Socket.io + PostgreSQL).

The database tables (`users`, `friendships`, `friend_requests`, `messages`)
are modelled as insertion-ordered lists: a `SELECT` without `ORDER BY`
returns rows in table (heap/insertion) order, and `rows[0]` in the handlers
is the head of the filtered list.  Serial / generated ids are modelled by
counters in the state, and `NOW()` by a logical clock that advances on every
write.  JavaScript falsiness on wire fields is modelled by `0` for numeric
ids and by `none` / `some ""` for optional string fields.  `bcrypt` hashing
is opaque to every claim; the stored credential is modelled as the plain
string and `bcrypt.compare` as string equality.
-/

structure User where
  id : Nat
  username : String
  name : String
  password_hash : String
  last_login : Option Nat
deriving Repr, DecidableEq

inductive ReqStatus where
  | pending
  | accepted
  | declined
deriving Repr, DecidableEq

structure FriendRequest where
  id : Nat
  sender_id : Nat
  receiver_id : Nat
  status : ReqStatus
  created_at : Nat
  updated_at : Nat
deriving Repr, DecidableEq

structure Friendship where
  user1_id : Nat
  user2_id : Nat
deriving Repr, DecidableEq

inductive MsgType where
  | text
  | image
deriving Repr, DecidableEq

structure Message where
  id : Nat
  sender_id : Nat
  receiver_id : Nat
  content : Option String
  message_type : MsgType
  image_data : Option String
  created_at : Nat
deriving Repr, DecidableEq

structure DB where
  users : List User
  friendships : List Friendship
  friend_requests : List FriendRequest
  messages : List Message
  nextUserId : Nat
  nextRequestId : Nat
  nextMessageId : Nat
  clock : Nat
deriving Repr, DecidableEq

/-- HTTP-level outcomes of the Express handlers, by status code. -/
inductive ApiError where
  | badRequest (msg : String)
  | unauthorized (msg : String)
  | notFound (msg : String)
  | conflict (msg : String)
  | internalError
deriving Repr, DecidableEq

/-- Truthiness of an optional string wire field: JavaScript treats
`undefined`, `null` and `""` as falsy. -/
def truthy : Option String → Bool
  | none => false
  | some s => s ≠ ""

/-- Row filter of `SELECT id FROM users WHERE username = $1`; `rows[0]`
is the head of this list. -/
def usersByUsername (st : DB) (u : String) : List User :=
  st.users.filter fun x => x.username == u

/-- Row filter of the friendship check
`WHERE (user1_id = $1 AND user2_id = $2) OR (user1_id = $2 AND user2_id = $1)`. -/
def pairFriendships (st : DB) (a b : Nat) : List Friendship :=
  st.friendships.filter fun f =>
    (f.user1_id == a && f.user2_id == b) || (f.user1_id == b && f.user2_id == a)

/-- Row filter of the friend-request check
`WHERE (sender_id = $1 AND receiver_id = $2) OR (sender_id = $2 AND receiver_id = $1)`
(note: no status filter in the handler's query). -/
def pairRequests (st : DB) (a b : Nat) : List FriendRequest :=
  st.friend_requests.filter fun r =>
    (r.sender_id == a && r.receiver_id == b) || (r.sender_id == b && r.receiver_id == a)

/-- POST `/register` (server.js).  Inserts the user; a duplicate username
violates the unique constraint (error code 23505) and yields 409. -/
def register (st : DB) (username password name : String) : Except ApiError DB :=
  if username = "" ∨ password = "" then
    .error (.badRequest "Username and password are required")
  else if st.users.any fun x => x.username == username then
    .error (.conflict "Username already exists")
  else
    .ok { st with
      users := st.users ++ [{ id := st.nextUserId, username := username,
                              name := if name = "" then username else name,
                              password_hash := password, last_login := none }],
      nextUserId := st.nextUserId + 1 }

/-- POST `/login` (server.js).  On a credential match it stamps
`last_login = NOW()`. -/
def login (st : DB) (username password : String) : Except ApiError DB :=
  if username = "" ∨ password = "" then
    .error (.badRequest "Username and password are required")
  else
    match (usersByUsername st username).head? with
    | none => .error (.unauthorized "Invalid username or password")
    | some user =>
      if user.password_hash = password then
        .ok { st with
          users := st.users.map fun x =>
            if x.id == user.id then { x with last_login := some st.clock } else x,
          clock := st.clock + 1 }
      else .error (.unauthorized "Invalid username or password")

/-- POST `/send-friend-request` (part_000, second server variant).
Resolves the receiver, rejects self-requests, rejects an existing
friendship, then inspects only `rows[0]` of the unfiltered pair-request
query before inserting a new `pending` request. -/
def sendFriendRequest (st : DB) (senderId : Nat) (receiverUsername : String) :
    Except ApiError DB :=
  if senderId = 0 ∨ receiverUsername = "" then
    .error (.badRequest "Sender ID and receiver username are required")
  else
    match (usersByUsername st receiverUsername).head? with
    | none => .error (.notFound "Recipient username not found")
    | some receiver =>
      if senderId = receiver.id then
        .error (.badRequest "You cannot send a friend request to yourself")
      else if (pairFriendships st senderId receiver.id) ≠ [] then
        .error (.conflict "You are already friends with this user")
      else
        match (pairRequests st senderId receiver.id).head? with
        | some existingRequest =>
          if existingRequest.status = .pending then
            if existingRequest.sender_id = senderId then
              .error (.conflict "Friend request already sent to this user")
            else
              .error (.conflict "This user has already sent you a friend request. Please check your requests.")
          else if existingRequest.status = .accepted then
            .error (.conflict "You are already friends with this user")
          else
            .ok { st with
              friend_requests := st.friend_requests ++
                [{ id := st.nextRequestId, sender_id := senderId,
                   receiver_id := receiver.id, status := .pending,
                   created_at := st.clock, updated_at := st.clock }],
              nextRequestId := st.nextRequestId + 1,
              clock := st.clock + 1 }
        | none =>
          .ok { st with
            friend_requests := st.friend_requests ++
              [{ id := st.nextRequestId, sender_id := senderId,
                 receiver_id := receiver.id, status := .pending,
                 created_at := st.clock, updated_at := st.clock }],
            nextRequestId := st.nextRequestId + 1,
            clock := st.clock + 1 }

/-- POST `/accept-friend-request` (part_000, second server variant).

Inside the transaction the handler finds the pending request addressed to
`userId`, updates its status to `accepted`, and then executes
`await client.query(insertFriendship11Query, [sender_id, receiver_id])`.
The only declared constant is `insertFriendship1Query`;
`insertFriendship11Query` is never defined anywhere in the file, so
evaluating it throws a `ReferenceError`.  The `catch` block issues
`ROLLBACK` and responds 500, which undoes the in-transaction status
update: the committed state is unchanged on every path of this handler. -/
def acceptFriendRequest (st : DB) (requestId userId : Nat) : Except ApiError DB :=
  if requestId = 0 ∨ userId = 0 then
    .error (.badRequest "Request ID and User ID are required")
  else
    match (st.friend_requests.filter fun r =>
        r.id == requestId && r.receiver_id == userId && r.status == .pending).head? with
    | none => .error (.notFound "Friend request not found or already processed")
    | some _ => .error .internalError

/-- POST `/decline-friend-request` (part_000, second server variant).
A single conditional `UPDATE ... WHERE id = $1 AND receiver_id = $2 AND
status = 'pending' RETURNING *`; zero affected rows yields 404. -/
def declineFriendRequest (st : DB) (requestId userId : Nat) : Except ApiError DB :=
  if requestId = 0 ∨ userId = 0 then
    .error (.badRequest "Request ID and User ID are required")
  else if st.friend_requests.any fun r =>
      r.id == requestId && r.receiver_id == userId && r.status == .pending then
    .ok { st with
      friend_requests := st.friend_requests.map fun r =>
        if r.id == requestId && r.receiver_id == userId && r.status == .pending then
          { r with status := .declined, updated_at := st.clock }
        else r,
      clock := st.clock + 1 }
  else
    .error (.notFound "Friend request not found or already processed")

/-- POST `/add-friend` (server.js).  Resolves the friend's username, checks
for an existing friendship in either direction, then inserts a friendship
row directly — no FriendRequest is consulted or created. -/
def addFriend (st : DB) (userId : Nat) (friendUsername : String) :
    Except ApiError DB :=
  if userId = 0 ∨ friendUsername = "" then
    .error (.badRequest "User ID and friend username are required")
  else
    match (usersByUsername st friendUsername).head? with
    | none => .error (.notFound "Friend username not found")
    | some friend =>
      if (pairFriendships st userId friend.id) ≠ [] then
        .error (.conflict "Friendship already exists")
      else
        .ok { st with
          friendships := st.friendships ++ [{ user1_id := userId, user2_id := friend.id }] }

/-- GET `/friends/:userId`: users joined against friendship rows matching
either side of the pair, excluding the user themself. -/
def listFriends (st : DB) (userId : Nat) : List User :=
  st.users.filter fun u =>
    (st.friendships.any fun f =>
      (u.id == f.user1_id && f.user2_id == userId) ||
      (u.id == f.user2_id && f.user1_id == userId)) && u.id != userId

/-- Comparison used by `ORDER BY created_at ASC`. -/
def msgLe (a b : Message) : Bool := a.created_at ≤ b.created_at

/-- Row filter of the conversation query
`WHERE (sender_id = $1 AND receiver_id = $2) OR (sender_id = $2 AND receiver_id = $1)`. -/
def pairMessages (st : DB) (userId friendId : Nat) : List Message :=
  st.messages.filter fun m =>
    (m.sender_id == userId && m.receiver_id == friendId) ||
    (m.sender_id == friendId && m.receiver_id == userId)

/-- GET `/messages/:userId/:friendId`: the conversation's rows ordered by
`created_at ASC`. -/
def fetchMessages (st : DB) (userId friendId : Nat) : List Message :=
  (pairMessages st userId friendId).mergeSort msgLe

/-- Inbound socket payload of a `chat message` event. -/
structure InboundMsg where
  senderId : Nat
  receiverId : Nat
  messageType : Option String
  imageData : Option String
  content : Option String
deriving Repr, DecidableEq

/-- A live socket connection registered for an authenticated user. -/
structure Conn where
  socketId : Nat
  userId : Nat
deriving Repr, DecidableEq

/-- Persistence part of the socket `chat message` handler (server.js).
Returns the committed state together with the saved row (`RETURNING *`)
when the handler reaches the insert; `none` means the handler returned
early (missing ids, or a non-image payload without content) — nothing is
persisted and no error is sent back to the socket. -/
def chatMessage (st : DB) (msg : InboundMsg) : DB × Option Message :=
  if msg.senderId = 0 ∨ msg.receiverId = 0 then
    (st, none)
  else if msg.messageType = some "image" ∧ truthy msg.imageData then
    let m : Message := { id := st.nextMessageId, sender_id := msg.senderId,
                         receiver_id := msg.receiverId, content := none,
                         message_type := .image, image_data := msg.imageData,
                         created_at := st.clock }
    ({ st with messages := st.messages ++ [m],
               nextMessageId := st.nextMessageId + 1,
               clock := st.clock + 1 }, some m)
  else if truthy msg.content then
    let m : Message := { id := st.nextMessageId, sender_id := msg.senderId,
                         receiver_id := msg.receiverId, content := msg.content,
                         message_type := .text, image_data := none,
                         created_at := st.clock }
    ({ st with messages := st.messages ++ [m],
               nextMessageId := st.nextMessageId + 1,
               clock := st.clock + 1 }, some m)
  else
    (st, none)

/-- Full socket handler: persist first, then `io.emit('chat message',
savedMessage)` hands the saved row to every connected socket (a global
broadcast, not a targeted route). -/
def handleChat (st : DB) (conns : List Conn) (msg : InboundMsg) :
    DB × List (Conn × Message) :=
  match chatMessage st msg with
  | (st', some m) => (st', conns.map fun c => (c, m))
  | (st', none) => (st', [])

/-- The mutating operations exposed by the system (read-only endpoints are
pure queries and change no state). -/
inductive Op where
  | register (username password name : String)
  | login (username password : String)
  | sendFriendRequest (senderId : Nat) (receiverUsername : String)
  | acceptFriendRequest (requestId userId : Nat)
  | declineFriendRequest (requestId userId : Nat)
  | addFriend (userId : Nat) (friendUsername : String)
  | chatMessage (msg : InboundMsg)
deriving Repr, DecidableEq

/-- Committed state after a handler: an error response leaves the store
unchanged (every handler checks before writing, or rolls back). -/
def commit (st : DB) : Except ApiError DB → DB
  | .ok st' => st'
  | .error _ => st

/-- State transition of one operation. -/
def applyOp (st : DB) : Op → DB
  | .register u p n => commit st (register st u p n)
  | .login u p => commit st (login st u p)
  | .sendFriendRequest s r => commit st (sendFriendRequest st s r)
  | .acceptFriendRequest r u => commit st (acceptFriendRequest st r u)
  | .declineFriendRequest r u => commit st (declineFriendRequest st r u)
  | .addFriend u f => commit st (addFriend st u f)
  | .chatMessage m => (chatMessage st m).1

/-- Does the accept handler commit successfully? -/
def acceptSucceeds (st : DB) (requestId userId : Nat) : Bool :=
  match acceptFriendRequest st requestId userId with
  | .ok _ => true
  | .error _ => false

/-! ### Concrete fixtures -/

def alice : User :=
  { id := 1, username := "alice", name := "Alice", password_hash := "pa", last_login := none }

def bob : User :=
  { id := 2, username := "bob", name := "Bob", password_hash := "pb", last_login := none }

def carol : User :=
  { id := 3, username := "carol", name := "Carol", password_hash := "pc", last_login := none }

/-- Three registered users, empty tables. -/
def st0 : DB :=
  { users := [alice, bob, carol], friendships := [], friend_requests := [],
    messages := [], nextUserId := 4, nextRequestId := 10, nextMessageId := 100, clock := 1000 }

/-- alice sends bob a friend request (request id 10, pending). -/
def s1 : DB := applyOp st0 (.sendFriendRequest 1 "bob")

/-- bob declines request 10. -/
def s2 : DB := applyOp s1 (.declineFriendRequest 10 2)

/-- alice sends bob a fresh request (id 11, pending) after the decline;
the table now holds the declined row 10 followed by the pending row 11. -/
def s3 : DB := applyOp s2 (.sendFriendRequest 1 "bob")

/-- Is there a pending friend request between `a` and `b`, in either
direction? -/
def pendingBetween (st : DB) (a b : Nat) : Bool :=
  st.friend_requests.any fun r =>
    ((r.sender_id == a && r.receiver_id == b) || (r.sender_id == b && r.receiver_id == a)) &&
    r.status == .pending

/-- Does the send-friend-request handler commit successfully? -/
def sendOk (st : DB) (s : Nat) (u : String) : Bool :=
  match sendFriendRequest st s u with
  | .ok _ => true
  | .error _ => false

/-- A state with a single pending request, id 10, from alice (1) to
bob (2): the exact precondition under which the accept handler is
supposed to succeed. -/
def stC1 : DB :=
  { users := [alice, bob], friendships := [],
    friend_requests := [{ id := 10, sender_id := 1, receiver_id := 2,
                          status := .pending, created_at := 5, updated_at := 5 }],
    messages := [], nextUserId := 3, nextRequestId := 11, nextMessageId := 100, clock := 50 }

/-- Sockets for users 1, 2 and 3. -/
def conns3 : List Conn :=
  [{ socketId := 101, userId := 1 }, { socketId := 102, userId := 2 },
   { socketId := 103, userId := 3 }]

/-- A text message from user 1 to user 2. -/
def msgAB : InboundMsg :=
  { senderId := 1, receiverId := 2, messageType := none, imageData := none,
    content := some "hi" }

/-! ### Claim theorems -/

/-- C1: on the exact input the claim's success branch describes — a
pending request with this id whose receiver is the acting user — the
accept handler reads the undefined variable `insertFriendship11Query`,
the thrown `ReferenceError` is caught, the transaction is rolled back,
and the caller receives a 500; the committed state is unchanged, so the
request is never transitioned to `accepted` and no Friendship is ever
created by this handler. -/
theorem accept_pending_request_rolls_back_with_internal_error :
    acceptFriendRequest stC1 10 2 = .error .internalError ∧
    applyOp stC1 (.acceptFriendRequest 10 2) = stC1 :=
  ⟨rfl, rfl⟩

/-- C3: the accept handler never commits successfully (every path ends in
an error response, the success path being cut off by the
`insertFriendship11Query` ReferenceError), so the claim's premise
"immediately after AcceptRequest succeeds" is unsatisfiable: no run of
the code ever reaches a state produced by a successful accept. -/
theorem accept_never_succeeds :
    ∀ (st : DB) (requestId userId : Nat), acceptSucceeds st requestId userId = false := by
  intro st requestId userId
  unfold acceptSucceeds
  split
  case h_1 st' heq =>
    unfold acceptFriendRequest at heq
    split at heq
    · simp at heq
    · split at heq <;> simp at heq
  case h_2 => rfl

/-- C5: `io.emit` broadcasts the saved message to every connected socket:
for a message from user 1 to user 2, the payload list reaches the socket
of user 3 — a third party to the conversation — even though every
delivered payload carries sender 1 and receiver 2. -/
theorem broadcast_reaches_nonparticipant :
    ((handleChat st0 conns3 msgAB).2.map fun p => p.1.userId) = [1, 2, 3] ∧
    ((handleChat st0 conns3 msgAB).2.all fun p =>
      p.2.sender_id == 1 && p.2.receiver_id == 2) = true := by
  decide

/-- C8 counterexample: starting from a state with no friend requests at
all, the `/add-friend` endpoint creates a Friendship record directly, so
after the call a Friendship for (1, 2) exists while the friend-request
table is still empty — refuting "a Friendship record is created only by
an AcceptRequest transition on a pending FriendRequest". -/
theorem addFriend_creates_friendship_without_any_request :
    (applyOp st0 (.addFriend 1 "bob")).friendships = [{ user1_id := 1, user2_id := 2 }] ∧
    (applyOp st0 (.addFriend 1 "bob")).friend_requests = [] := by
  decide

/-- C2 counterexample: in the reachable state `s3` (send, decline, send
again) the pair (1, 2) has a pending request — row 11 — but a further
send from 1 to "bob" succeeds instead of failing with the
duplicate-pending conflict, because the handler inspects only the first
row of the unfiltered pair query, which is the older declined row 10;
the resulting table holds two pending requests for the same pair. -/
theorem send_misses_pending_behind_declined_row :
    pendingBetween s3 1 2 = true ∧
    sendOk s3 1 "bob" = true ∧
    ((applyOp s3 (.sendFriendRequest 1 "bob")).friend_requests.filter fun r =>
      ((r.sender_id == 1 && r.receiver_id == 2) || (r.sender_id == 2 && r.receiver_id == 1)) &&
      r.status == .pending).length = 2 := by
  decide

/-- Structural fact about the persistence step: whenever the socket
handler reaches the insert, the committed state is exactly the old state
with the saved row appended, and the saved row carries the
server-assigned id (`nextMessageId`) and timestamp (`NOW()`). -/
theorem chatMessage_some_spec (st : DB) (msg : InboundMsg) (st' : DB) (m : Message)
    (h : chatMessage st msg = (st', some m)) :
    st'.messages = st.messages ++ [m] ∧ m.id = st.nextMessageId ∧
    m.created_at = st.clock := by
  unfold chatMessage at h
  split at h
  · simp at h
  · split at h
    · rw [Prod.mk.injEq] at h
      obtain ⟨rfl, h2⟩ := h
      rw [Option.some.injEq] at h2
      subst h2
      simp
    · split at h
      · rw [Prod.mk.injEq] at h
        obtain ⟨rfl, h2⟩ := h
        rw [Option.some.injEq] at h2
        subst h2
        simp
      · simp at h

/-- C4: the socket handler persists the message before any delivery and
broadcasts the persisted, server-assigned record.  For every state and
inbound message: (1) the committed state does not depend on the set of
live connections — in particular, total delivery failure (no
connections) leaves the same persisted state, and the send itself never
fails; (2) every delivered payload is exactly the row just appended to
the messages table, carrying the server-assigned id and timestamp; (3)
all observers receive the identical record. -/
theorem chat_persists_before_broadcast_canonical_payload :
    ∀ (st : DB) (conns conns2 : List Conn) (msg : InboundMsg),
      (handleChat st conns msg).1 = (handleChat st conns2 msg).1 ∧
      (∀ cp ∈ (handleChat st conns msg).2,
        (handleChat st conns msg).1.messages = st.messages ++ [cp.2] ∧
        cp.2.id = st.nextMessageId ∧ cp.2.created_at = st.clock) ∧
      (∀ cp ∈ (handleChat st conns msg).2, ∀ cq ∈ (handleChat st conns msg).2,
        cp.2 = cq.2) := by
  intro st conns conns2 msg
  unfold handleChat
  rcases h : chatMessage st msg with ⟨st', mo⟩
  rcases mo with _ | m
  · simp
  · dsimp only
    obtain ⟨hmsgs, hid, hts⟩ := chatMessage_some_spec st msg st' m h
    refine ⟨rfl, ?_, ?_⟩
    · intro cp hcp
      simp only [List.mem_map] at hcp
      obtain ⟨c, _, rfl⟩ := hcp
      exact ⟨hmsgs, hid, hts⟩
    · intro cp hcp cq hcq
      simp only [List.mem_map] at hcp hcq
      obtain ⟨c, _, rfl⟩ := hcp
      obtain ⟨c', _, rfl⟩ := hcq
      rfl

/-- The row the handler saves for `msgAB` in `st0`. -/
def savedHi : Message :=
  { id := 100, sender_id := 1, receiver_id := 2, content := some "hi",
    message_type := .text, image_data := none, created_at := 1000 }

/-- Witness for C4 at a concrete send: same committed state with three
connections as with none, and the payload delivered to user 1's socket is
the persisted row with the server-assigned id and timestamp. -/
theorem chat_persists_before_broadcast_canonical_payload_witness :
    (handleChat st0 conns3 msgAB).1 = (handleChat st0 [] msgAB).1 ∧
    ((handleChat st0 conns3 msgAB).1.messages = st0.messages ++ [savedHi] ∧
      savedHi.id = st0.nextMessageId ∧ savedHi.created_at = st0.clock) := by
  have h := chat_persists_before_broadcast_canonical_payload st0 conns3 [] msgAB
  exact ⟨h.1, h.2.1 ({ socketId := 101, userId := 1 }, savedHi) (by decide)⟩

/-- C10: an inbound event with `messageType = 'image'` but a falsy
`imageData` is not rejected as an invalid image message: the guard
`msg.messageType === 'image' && msg.imageData` fails and control falls
into the text branch, so with a truthy `content` the event is persisted
and delivered as a `text` message carrying that content, and with a
falsy `content` the handler returns early — nothing is persisted, nothing
delivered, and no error is sent back to the socket. -/
theorem image_without_data_falls_through_to_text :
    ∀ (st : DB) (msg : InboundMsg),
      msg.senderId ≠ 0 → msg.receiverId ≠ 0 →
      msg.messageType = some "image" → truthy msg.imageData = false →
      (truthy msg.content = true →
        chatMessage st msg =
          ({ st with
              messages := st.messages ++
                [{ id := st.nextMessageId, sender_id := msg.senderId,
                   receiver_id := msg.receiverId, content := msg.content,
                   message_type := .text, image_data := none,
                   created_at := st.clock }],
              nextMessageId := st.nextMessageId + 1, clock := st.clock + 1 },
           some { id := st.nextMessageId, sender_id := msg.senderId,
                  receiver_id := msg.receiverId, content := msg.content,
                  message_type := .text, image_data := none,
                  created_at := st.clock })) ∧
      (truthy msg.content = false → chatMessage st msg = (st, none)) := by
  intro st msg hs hr _ hdata
  constructor
  · intro hc
    unfold chatMessage
    rw [if_neg (by simp [hs, hr]), if_neg (by simp [hdata]), if_pos hc]
  · intro hc
    unfold chatMessage
    rw [if_neg (by simp [hs, hr]), if_neg (by simp [hdata]), if_neg (by simp [hc])]

/-- An image event that lost its payload but still carries text content. -/
def msgImgNoData : InboundMsg :=
  { senderId := 1, receiverId := 2, messageType := some "image",
    imageData := none, content := some "fallthrough" }

/-- An image event with an empty payload and no content at all. -/
def msgImgNothing : InboundMsg :=
  { senderId := 1, receiverId := 2, messageType := some "image",
    imageData := some "", content := none }

/-- Witness for C10: the image-without-data event with content is stored
as a text message with that content, and the one without content is
dropped leaving the state untouched. -/
theorem image_without_data_falls_through_to_text_witness :
    chatMessage st0 msgImgNoData =
      ({ st0 with
          messages := st0.messages ++
            [{ id := st0.nextMessageId, sender_id := 1, receiver_id := 2,
               content := some "fallthrough", message_type := .text,
               image_data := none, created_at := st0.clock }],
          nextMessageId := st0.nextMessageId + 1, clock := st0.clock + 1 },
       some { id := st0.nextMessageId, sender_id := 1, receiver_id := 2,
              content := some "fallthrough", message_type := .text,
              image_data := none, created_at := st0.clock }) ∧
    chatMessage st0 msgImgNothing = (st0, none) := by
  exact ⟨(image_without_data_falls_through_to_text st0 msgImgNoData
            (by decide) (by decide) rfl rfl).1 rfl,
         (image_without_data_falls_through_to_text st0 msgImgNothing
            (by decide) (by decide) rfl rfl).2 rfl⟩

/-- A 501-character content string, one over the client-side bound. -/
def longA : String := String.mk (List.replicate 501 'a')

set_option maxRecDepth 20000 in
/-- C6 counterexample: the server enforces no maximum length — a text
message whose content is 501 characters long is persisted and delivered,
not rejected; and an event with neither text content nor image payload
is dropped by an early `return` with nothing persisted and no error of
any kind produced for the caller (the handler has no error reply path at
all), contradicting "rejected with InvalidInput … surfaced to the
caller … rather than being silently dropped" on both counts. -/
theorem overlong_text_persisted_and_empty_send_dropped_silently :
    ((chatMessage st0 { senderId := 1, receiverId := 2, messageType := none,
                        imageData := none, content := some longA }).2.map
      Message.content) = some (some longA) ∧
    (chatMessage st0 { senderId := 1, receiverId := 2, messageType := none,
                       imageData := none, content := some longA }).1.messages.length = 1 ∧
    longA.length = 501 ∧
    chatMessage st0 { senderId := 1, receiverId := 2, messageType := none,
                      imageData := none, content := none } = (st0, none) ∧
    handleChat st0 conns3 { senderId := 1, receiverId := 2, messageType := none,
                            imageData := none, content := none } = (st0, []) := by
  refine ⟨rfl, rfl, rfl, rfl, rfl⟩

/-- C6 amended: for a well-formed text send (non-image event with both
ids) the server persists and delivers the content unchanged whatever its
length — the 500-character bound exists only as a client-side input
attribute — and an event whose content is missing or empty is dropped
silently: the state is unchanged and the handler produces no reply of
any kind for the caller. -/
theorem chat_text_unbounded_and_silent_drop :
    ∀ (st : DB) (s r : Nat) (c : Option String),
      s ≠ 0 → r ≠ 0 →
      ((truthy c = true →
        chatMessage st { senderId := s, receiverId := r, messageType := none,
                         imageData := none, content := c } =
          ({ st with
              messages := st.messages ++
                [{ id := st.nextMessageId, sender_id := s, receiver_id := r,
                   content := c, message_type := .text, image_data := none,
                   created_at := st.clock }],
              nextMessageId := st.nextMessageId + 1, clock := st.clock + 1 },
           some { id := st.nextMessageId, sender_id := s, receiver_id := r,
                  content := c, message_type := .text, image_data := none,
                  created_at := st.clock })) ∧
       (truthy c = false →
        chatMessage st { senderId := s, receiverId := r, messageType := none,
                         imageData := none, content := c } = (st, none))) := by
  intro st s r c hs hr
  constructor
  · intro hc
    unfold chatMessage
    rw [if_neg (by simp [hs, hr]), if_neg (by simp), if_pos hc]
  · intro hc
    unfold chatMessage
    rw [if_neg (by simp [hs, hr]), if_neg (by simp), if_neg (by simp [hc])]

set_option maxRecDepth 20000 in
/-- Witness for the amended C6: instantiated at the 501-character content
(persisted unchanged) and at a missing content (state unchanged, nothing
delivered). -/
theorem chat_text_unbounded_and_silent_drop_witness :
    chatMessage st0 { senderId := 1, receiverId := 2, messageType := none,
                      imageData := none, content := some longA } =
      ({ st0 with
          messages := st0.messages ++
            [{ id := st0.nextMessageId, sender_id := 1, receiver_id := 2,
               content := some longA, message_type := .text, image_data := none,
               created_at := st0.clock }],
          nextMessageId := st0.nextMessageId + 1, clock := st0.clock + 1 },
       some { id := st0.nextMessageId, sender_id := 1, receiver_id := 2,
              content := some longA, message_type := .text, image_data := none,
              created_at := st0.clock }) ∧
    chatMessage st0 { senderId := 1, receiverId := 2, messageType := none,
                      imageData := none, content := none } = (st0, none) := by
  exact ⟨(chat_text_unbounded_and_silent_drop st0 1 2 (some longA)
            (by decide) (by decide)).1 (by rw [truthy]; decide),
         (chat_text_unbounded_and_silent_drop st0 1 2 none
            (by decide) (by decide)).2 rfl⟩

/-- The state after the send handler inserts a new pending request for
`senderId → rid`. -/
def newReqState (st : DB) (senderId rid : Nat) : DB :=
  { st with
    friend_requests := st.friend_requests ++
      [{ id := st.nextRequestId, sender_id := senderId, receiver_id := rid,
         status := .pending, created_at := st.clock, updated_at := st.clock }],
    nextRequestId := st.nextRequestId + 1,
    clock := st.clock + 1 }

/-- C2 amended: branch-exact behavior of the send-friend-request handler.
NotFound when the username resolves to no row; SelfRequest when the
resolved id equals the sender; AlreadyFriends when a friendship row
exists for the pair; then the duplicate check inspects only the FIRST
row of the status-unfiltered pair query: pending first row gives the
direction-specific duplicate conflict, accepted first row gives
AlreadyFriends, and a declined first row — or no row — lets a fresh
`pending` request be inserted. -/
theorem sendFriendRequest_branch_spec :
    ∀ (st : DB) (senderId : Nat) (uname : String),
      senderId ≠ 0 → uname ≠ "" →
      ((usersByUsername st uname).head? = none →
        sendFriendRequest st senderId uname =
          .error (.notFound "Recipient username not found")) ∧
      (∀ rcv, (usersByUsername st uname).head? = some rcv →
        (senderId = rcv.id →
          sendFriendRequest st senderId uname =
            .error (.badRequest "You cannot send a friend request to yourself")) ∧
        (senderId ≠ rcv.id → pairFriendships st senderId rcv.id ≠ [] →
          sendFriendRequest st senderId uname =
            .error (.conflict "You are already friends with this user")) ∧
        (senderId ≠ rcv.id → pairFriendships st senderId rcv.id = [] →
          (∀ hreq, (pairRequests st senderId rcv.id).head? = some hreq →
            (hreq.status = .pending → hreq.sender_id = senderId →
              sendFriendRequest st senderId uname =
                .error (.conflict "Friend request already sent to this user")) ∧
            (hreq.status = .pending → hreq.sender_id ≠ senderId →
              sendFriendRequest st senderId uname =
                .error (.conflict "This user has already sent you a friend request. Please check your requests.")) ∧
            (hreq.status = .accepted →
              sendFriendRequest st senderId uname =
                .error (.conflict "You are already friends with this user")) ∧
            (hreq.status = .declined →
              sendFriendRequest st senderId uname = .ok (newReqState st senderId rcv.id))) ∧
          ((pairRequests st senderId rcv.id).head? = none →
            sendFriendRequest st senderId uname = .ok (newReqState st senderId rcv.id)))) := by
  intro st senderId uname hs hu
  refine ⟨?_, ?_⟩
  · intro hnone
    simp [sendFriendRequest, hs, hu, hnone]
  · intro rcv hsome
    refine ⟨?_, ?_, ?_⟩
    · intro hself
      subst hself
      simp [sendFriendRequest, hs, hu, hsome]
    · intro hself hfr
      simp [sendFriendRequest, hs, hu, hsome, hself, hfr]
    · intro hself hfre
      refine ⟨?_, ?_⟩
      · intro hreq hhead
        refine ⟨?_, ?_, ?_, ?_⟩
        · intro hsp hss
          simp [sendFriendRequest, hs, hu, hsome, hself, hfre, hhead, hsp, hss]
        · intro hsp hss
          simp [sendFriendRequest, hs, hu, hsome, hself, hfre, hhead, hsp, hss]
        · intro hsa
          simp [sendFriendRequest, hs, hu, hsome, hself, hfre, hhead, hsa, newReqState]
        · intro hsd
          simp [sendFriendRequest, hs, hu, hsome, hself, hfre, hhead, hsd, newReqState]
      · intro hhead
        simp [sendFriendRequest, hs, hu, hsome, hself, hfre, hhead, newReqState]

/-- The pending request row created in `s1`. -/
def req10 : FriendRequest :=
  { id := 10, sender_id := 1, receiver_id := 2, status := .pending,
    created_at := 1000, updated_at := 1000 }

/-- The same row after bob declines it in `s2`. -/
def req10d : FriendRequest :=
  { id := 10, sender_id := 1, receiver_id := 2, status := .declined,
    created_at := 1000, updated_at := 1001 }

/-- Witness for the amended C2 at concrete states: both duplicate-pending
messages, the fresh send after a decline, and the send with no prior
request. -/
theorem sendFriendRequest_branch_spec_witness :
    sendFriendRequest s1 1 "bob" =
      .error (.conflict "Friend request already sent to this user") ∧
    sendFriendRequest s1 2 "alice" =
      .error (.conflict "This user has already sent you a friend request. Please check your requests.") ∧
    sendFriendRequest s2 1 "bob" = .ok (newReqState s2 1 2) ∧
    sendFriendRequest st0 1 "bob" = .ok (newReqState st0 1 2) := by
  refine ⟨?_, ?_, ?_, ?_⟩
  · exact ((((sendFriendRequest_branch_spec s1 1 "bob" (by decide) (by decide)).2
      bob rfl).2.2 (by decide) rfl).1 req10 rfl).1 rfl rfl
  · exact ((((sendFriendRequest_branch_spec s1 2 "alice" (by decide) (by decide)).2
      alice rfl).2.2 (by decide) rfl).1 req10 rfl).2.1 rfl (by decide)
  · exact ((((sendFriendRequest_branch_spec s2 1 "bob" (by decide) (by decide)).2
      bob rfl).2.2 (by decide) rfl).1 req10d rfl).2.2.2 rfl
  · exact (((sendFriendRequest_branch_spec st0 1 "bob" (by decide) (by decide)).2
      bob rfl).2.2 (by decide) rfl).2 rfl

/-- Is there a pending request row with this exact id addressed to this
receiver — the row the accept/decline `WHERE` clause matches? -/
def pendingReqMatch (st : DB) (rid uid : Nat) : Bool :=
  st.friend_requests.any fun r =>
    r.id == rid && r.receiver_id == uid && r.status == .pending

/-- C9: the decline handler fails with NotFound unless a pending request
with that id exists whose receiver is the acting user (the same
`WHERE id AND receiver_id AND status = 'pending'` rule the accept handler
uses); on success the matching row is transitioned to `declined` while
friendships and messages are untouched and no row is added or removed;
and the duplicate check of a later send rejects only a pending (or
accepted) first row, so a fresh request between the same pair is allowed
when the pair's stored requests are all declined. -/
theorem declineFriendRequest_spec :
    (∀ (st : DB) (rid uid : Nat), rid ≠ 0 → uid ≠ 0 →
      pendingReqMatch st rid uid = false →
      declineFriendRequest st rid uid =
        .error (.notFound "Friend request not found or already processed")) ∧
    (∀ (st : DB) (rid uid : Nat), rid ≠ 0 → uid ≠ 0 →
      pendingReqMatch st rid uid = true →
      ∃ st', declineFriendRequest st rid uid = .ok st' ∧
        st'.friendships = st.friendships ∧
        st'.messages = st.messages ∧
        st'.friend_requests.length = st.friend_requests.length ∧
        (st'.friend_requests.any fun r =>
          r.id == rid && r.receiver_id == uid && r.status == .declined) = true) ∧
    (∀ (st : DB) (senderId : Nat) (uname : String) (rcv : User),
      senderId ≠ 0 → uname ≠ "" →
      (usersByUsername st uname).head? = some rcv → senderId ≠ rcv.id →
      pairFriendships st senderId rcv.id = [] →
      (∀ r ∈ pairRequests st senderId rcv.id, r.status = .declined) →
      sendFriendRequest st senderId uname = .ok (newReqState st senderId rcv.id) ∧
      ((newReqState st senderId rcv.id).friend_requests.any fun r =>
        r.sender_id == senderId && r.receiver_id == rcv.id && r.status == .pending) = true) := by
  refine ⟨?_, ?_, ?_⟩
  · intro st rid uid hr hu hmatch
    unfold pendingReqMatch at hmatch
    unfold declineFriendRequest
    rw [if_neg (by simp [hr, hu]), if_neg (by simp [hmatch])]
  · intro st rid uid hr hu hmatch
    unfold pendingReqMatch at hmatch
    refine ⟨{ st with
        friend_requests := st.friend_requests.map fun r =>
          if r.id == rid && r.receiver_id == uid && r.status == .pending then
            { r with status := .declined, updated_at := st.clock }
          else r,
        clock := st.clock + 1 }, ?_, rfl, rfl, by simp, ?_⟩
    · unfold declineFriendRequest
      rw [if_neg (by simp [hr, hu]), if_pos hmatch]
    · rw [List.any_eq_true] at hmatch ⊢
      obtain ⟨r, hrmem, hrcond⟩ := hmatch
      refine ⟨{ r with status := .declined, updated_at := st.clock }, ?_, ?_⟩
      · simp only [List.mem_map]
        exact ⟨r, hrmem, by rw [if_pos hrcond]⟩
      · simp only [Bool.and_eq_true, beq_iff_eq] at hrcond ⊢
        exact ⟨⟨hrcond.1.1, hrcond.1.2⟩, trivial⟩
  · intro st senderId uname rcv hs hu hsome hself hfre hall
    have hspec := (sendFriendRequest_branch_spec st senderId uname hs hu).2 rcv hsome
    constructor
    · rcases hhead : (pairRequests st senderId rcv.id).head? with _ | hreq
      · exact ((hspec.2.2 hself hfre).2 hhead)
      · have hmem : hreq ∈ pairRequests st senderId rcv.id :=
          List.mem_of_mem_head? hhead
        exact (((hspec.2.2 hself hfre).1 hreq hhead).2.2.2 (hall hreq hmem))
    · rw [List.any_eq_true]
      refine ⟨{ id := st.nextRequestId, sender_id := senderId, receiver_id := rcv.id,
                status := .pending, created_at := st.clock, updated_at := st.clock }, ?_, by simp⟩
      simp [newReqState]

/-- Witness for C9: declining in the empty store is NotFound; declining
the pending request in `s1` succeeds, flips the row to `declined` and
touches nothing else; and the post-decline state `s2` accepts a fresh
request, which lands as a new pending row. -/
theorem declineFriendRequest_spec_witness :
    declineFriendRequest st0 10 2 =
      .error (.notFound "Friend request not found or already processed") ∧
    (∃ st', declineFriendRequest s1 10 2 = .ok st' ∧
      st'.friendships = s1.friendships ∧
      st'.messages = s1.messages ∧
      st'.friend_requests.length = s1.friend_requests.length ∧
      (st'.friend_requests.any fun r =>
        r.id == 10 && r.receiver_id == 2 && r.status == .declined) = true) ∧
    (sendFriendRequest s2 1 "bob" = .ok (newReqState s2 1 2) ∧
      ((newReqState s2 1 2).friend_requests.any fun r =>
        r.sender_id == 1 && r.receiver_id == 2 && r.status == .pending) = true) := by
  refine ⟨?_, ?_, ?_⟩
  · exact declineFriendRequest_spec.1 st0 10 2 (by decide) (by decide) (by decide)
  · exact declineFriendRequest_spec.2.1 s1 10 2 (by decide) (by decide) (by decide)
  · exact declineFriendRequest_spec.2.2 s2 1 "bob" bob (by decide) (by decide) rfl
      (by decide) rfl (by decide)

/-- Is this operation a call to the `/add-friend` endpoint? -/
def isAddFriendOp : Op → Bool
  | .addFriend _ _ => true
  | _ => false

theorem register_keeps_friendships (st : DB) (u p n : String) :
    (commit st (register st u p n)).friendships = st.friendships := by
  unfold register
  split
  · rfl
  · split
    · rfl
    · rfl

theorem login_keeps_friendships (st : DB) (u p : String) :
    (commit st (login st u p)).friendships = st.friendships := by
  unfold login
  split
  · rfl
  · split
    · rfl
    · split
      · rfl
      · rfl

theorem send_keeps_friendships (st : DB) (s : Nat) (u : String) :
    (commit st (sendFriendRequest st s u)).friendships = st.friendships := by
  unfold sendFriendRequest
  split
  · rfl
  · split
    · rfl
    · split
      · rfl
      · split
        · rfl
        · split
          · split
            · split
              · rfl
              · rfl
            · split
              · rfl
              · rfl
          · rfl

theorem accept_keeps_friendships (st : DB) (r u : Nat) :
    (commit st (acceptFriendRequest st r u)).friendships = st.friendships := by
  unfold acceptFriendRequest
  split
  · rfl
  · split
    · rfl
    · rfl

theorem decline_keeps_friendships (st : DB) (r u : Nat) :
    (commit st (declineFriendRequest st r u)).friendships = st.friendships := by
  unfold declineFriendRequest
  split
  · rfl
  · split
    · rfl
    · rfl

theorem chat_keeps_friendships (st : DB) (m : InboundMsg) :
    (chatMessage st m).1.friendships = st.friendships := by
  unfold chatMessage
  split
  · rfl
  · split
    · rfl
    · split
      · rfl
      · rfl

theorem addFriend_appends_friendships (st : DB) (u : Nat) (f : String) :
    ∃ t, (commit st (addFriend st u f)).friendships = st.friendships ++ t := by
  unfold addFriend
  split
  · exact ⟨[], (List.append_nil _).symm⟩
  · split
    · exact ⟨[], (List.append_nil _).symm⟩
    · split
      · exact ⟨[], (List.append_nil _).symm⟩
      · exact ⟨_, rfl⟩

/-- C8 amended: across every operation the system exposes, the
friendships table is append-only — existing rows are never updated and
never deleted — and the only operation that ever appends to it is the
`/add-friend` endpoint (the accept handler would, but it never reaches
its insert). -/
theorem friendships_append_only_and_only_addFriend :
    ∀ (st : DB) (op : Op),
      (∃ t, (applyOp st op).friendships = st.friendships ++ t) ∧
      ((applyOp st op).friendships = st.friendships ∨ isAddFriendOp op = true) := by
  intro st op
  cases op with
  | register u p n =>
      exact ⟨⟨[], by rw [applyOp, register_keeps_friendships]; simp⟩,
             .inl (register_keeps_friendships st u p n)⟩
  | login u p =>
      exact ⟨⟨[], by rw [applyOp, login_keeps_friendships]; simp⟩,
             .inl (login_keeps_friendships st u p)⟩
  | sendFriendRequest s u =>
      exact ⟨⟨[], by rw [applyOp, send_keeps_friendships]; simp⟩,
             .inl (send_keeps_friendships st s u)⟩
  | acceptFriendRequest r u =>
      exact ⟨⟨[], by rw [applyOp, accept_keeps_friendships]; simp⟩,
             .inl (accept_keeps_friendships st r u)⟩
  | declineFriendRequest r u =>
      exact ⟨⟨[], by rw [applyOp, decline_keeps_friendships]; simp⟩,
             .inl (decline_keeps_friendships st r u)⟩
  | addFriend u f =>
      exact ⟨by rw [applyOp]; exact addFriend_appends_friendships st u f, .inr rfl⟩
  | chatMessage m =>
      exact ⟨⟨[], by rw [applyOp, chat_keeps_friendships]; simp⟩,
             .inl (chat_keeps_friendships st m)⟩

/-- C7: the history endpoint returns exactly the messages whose unordered
(sender, receiver) pair equals (userId, friendId) — each row carried in
full, with its `message_type` discriminator and its payload fields —
ordered by creation time ascending; and a send of text "hello" from A to
B followed by a history fetch for (A, B) returns that message with
content "hello", kind text, sender A, receiver B, and a server timestamp
at or after the clock at the time of the call. -/
theorem fetchMessages_conversation_spec :
    (∀ (st : DB) (u f : Nat) (m : Message),
      m ∈ fetchMessages st u f ↔
        m ∈ st.messages ∧
        ((m.sender_id = u ∧ m.receiver_id = f) ∨
         (m.sender_id = f ∧ m.receiver_id = u))) ∧
    (∀ (st : DB) (u f : Nat),
      (fetchMessages st u f).Pairwise fun a b => a.created_at ≤ b.created_at) ∧
    (∀ (st : DB) (A B : Nat), A ≠ 0 → B ≠ 0 →
      ∃ st' m,
        chatMessage st { senderId := A, receiverId := B, messageType := none,
                         imageData := none, content := some "hello" } = (st', some m) ∧
        m ∈ fetchMessages st' A B ∧ m.content = some "hello" ∧
        m.message_type = .text ∧ m.sender_id = A ∧ m.receiver_id = B ∧
        st.clock ≤ m.created_at) := by
  refine ⟨?_, ?_, ?_⟩
  · intro st u f m
    unfold fetchMessages pairMessages
    rw [List.mem_mergeSort, List.mem_filter]
    simp [Bool.and_eq_true, Bool.or_eq_true, beq_iff_eq]
  · intro st u f
    have h := @List.sorted_mergeSort Message msgLe
      (fun a b c hab hbc => by
        simp only [msgLe, decide_eq_true_eq] at *
        omega)
      (fun a b => by
        simp only [msgLe, Bool.or_eq_true, decide_eq_true_eq]
        omega)
      (pairMessages st u f)
    exact h.imp fun hab => by simpa [msgLe] using hab
  · intro st A B hA hB
    refine ⟨{ st with
        messages := st.messages ++
          [{ id := st.nextMessageId, sender_id := A, receiver_id := B,
             content := some "hello", message_type := .text, image_data := none,
             created_at := st.clock }],
        nextMessageId := st.nextMessageId + 1, clock := st.clock + 1 },
      { id := st.nextMessageId, sender_id := A, receiver_id := B,
        content := some "hello", message_type := .text, image_data := none,
        created_at := st.clock }, ?_, ?_, rfl, rfl, rfl, rfl, le_refl _⟩
    · unfold chatMessage
      rw [if_neg (by simp [hA, hB]), if_neg (by simp)]
      rfl
    · unfold fetchMessages pairMessages
      rw [List.mem_mergeSort, List.mem_filter]
      exact ⟨by simp, by simp⟩

/-- Witness for C7: the round trip instantiated at the concrete store
`st0` with sender 1 and receiver 2. -/
theorem fetchMessages_conversation_spec_witness :
    ∃ st' m,
      chatMessage st0 { senderId := 1, receiverId := 2, messageType := none,
                        imageData := none, content := some "hello" } = (st', some m) ∧
      m ∈ fetchMessages st' 1 2 ∧ m.content = some "hello" ∧
      m.message_type = .text ∧ m.sender_id = 1 ∧ m.receiver_id = 2 ∧
      st0.clock ≤ m.created_at :=
  fetchMessages_conversation_spec.2.2 st0 1 2 (by decide) (by decide)
